import Mathlib

/-!
Verification development for the virtualHDM relay (src/main.go).

The program is a single-file Go HTTP relay.  We embed its pure logic
shallowly: the JSON data model, the crn validation (strconv.Atoi), the
credential-store glob resolution (findCertificateFiles), the
certificate re-upload step (checkCertificates), the outbound call
builder (runCurlCommand) and the HTTP handler (handleRequest).  The
external world (filesystem listing, os.Stat, the two curl executions,
time.Now) is passed in as an explicit environment, and the outbound
calls a request performs are recorded as an explicit trace.
-/

/-- A single-quote character, used to build the literal error messages
of the program without writing quote characters inside string literals. -/
def quo : String := String.singleton (Char.ofNat 39)

/-- Message of main.go line 180. -/
def msgCrnMissing : String := "Field " ++ quo ++ "crn" ++ quo ++ " is missing"

/-- Message of main.go line 186. -/
def msgCrnString : String := "Field " ++ quo ++ "crn" ++ quo ++ " must be a string"

/-- Message of main.go line 192. -/
def msgCrnNumbers : String := "Field " ++ quo ++ "crn" ++ quo ++ " must contain only numbers"

/-- Message of main.go line 105 (call-builder layer). -/
def msgCrnMissingLower : String := "field " ++ quo ++ "crn" ++ quo ++ " is missing"

/-- Message of main.go line 110 (call-builder layer). -/
def msgCrnStringLower : String := "field " ++ quo ++ "crn" ++ quo ++ " must be a string"

/-- Message of main.go line 115 (call-builder layer). -/
def msgCrnNumbersLower : String := "field " ++ quo ++ "crn" ++ quo ++ " must contain only numbers"

/-- The hard-coded message of the 405 response (main.go line 148): note the
method name inside it is the fixed text GET, whatever the actual method was. -/
def msg405 : String := "Request method " ++ quo ++ "GET" ++ quo ++ " not supported"

/-- main.go line 17. -/
def baseURL : String := "https://ecrm.taxservice.am/taxsystem-rs-vcr/api/v1.0/"

/-- main.go lines 19-29: the endpoint map (key and value coincide). -/
def endpoints : List (String × String) :=
  [("checkConnection", "checkConnection"),
   ("activate", "activate"),
   ("configureDepartments", "configureDepartments"),
   ("getGoodList", "getGoodList"),
   ("print", "print"),
   ("printCopy", "printCopy"),
   ("getReturnedReceiptInfo", "getReturnedReceiptInfo"),
   ("printReturnReceipt", "printReturnReceipt"),
   ("uploadCertificate", "uploadCertificate")]

/-- main.go lines 209-235: the nine local routes and the endpoint key each
one dispatches to handleRequest with. -/
def routes : List (String × String) :=
  [("/checkConnection", "checkConnection"),
   ("/activate", "activate"),
   ("/configureDepartments", "configureDepartments"),
   ("/getGoodList", "getGoodList"),
   ("/print", "print"),
   ("/printCopy", "printCopy"),
   ("/getReturnedReceiptInfo", "getReturnedReceiptInfo"),
   ("/printReturnReceipt", "printReturnReceipt"),
   ("/uploadCertificate", "uploadCertificate")]

mutual
/-- A JSON value as present in a request body text.  Numbers are modelled
by their exact integer value: the claims under study only involve integer
numerals, and integer numerals are where Go float64 decoding loses
information. -/
inductive Json where
  | null
  | bool (b : Bool)
  | num (n : Int)
  | str (s : String)
  | arr (elems : JsonList)
  | obj (fields : JsonFields)

inductive JsonList where
  | nil
  | cons (hd : Json) (tl : JsonList)

inductive JsonFields where
  | nil
  | cons (key : String) (val : Json) (tl : JsonFields)
end

mutual
/-- A Go value of dynamic type interface{} as produced by json.Unmarshal
into map[string]any: numbers are float64 (here: the exact integer value the
double denotes), objects are Go maps, recorded in the sorted, deduplicated
key order in which json.Marshal re-serializes them. -/
inductive GoValue where
  | null
  | bool (b : Bool)
  | num (n : Int)
  | str (s : String)
  | arr (elems : GoList)
  | obj (fields : GoFields)

inductive GoList where
  | nil
  | cons (hd : GoValue) (tl : GoList)

inductive GoFields where
  | nil
  | cons (key : String) (val : GoValue) (tl : GoFields)
end

/-- Smallest e (within fuel) such that a < 2 ^ (e + 53); for
2 ^ 53 < a < 2 ^ 1153 this is the binary exponent of a minus 52, i.e. the
scale at which a is rounded to 53 significant bits.  Fuel 1100 covers the
whole finite double range (doubles overflow at 2 ^ 1024 anyway). -/
def dblExpAux : Nat → Nat → Nat → Nat
  | 0, _, e => e
  | fuel + 1, a, e => if a < 2 ^ (e + 53) then e else dblExpAux fuel a (e + 1)

/-- Rounding of an integer to the nearest IEEE-754 binary64 value
(round-to-nearest, ties-to-even), expressed on exact integers: this is what
Go's encoding/json does to an integer numeral when decoding into
interface{} (it decodes every JSON number as a float64).  Integers of
magnitude at most 2 ^ 53 are exactly representable and unchanged. -/
def roundDouble (n : Int) : Int :=
  let a := n.natAbs
  if a ≤ 2 ^ 53 then n
  else
    let e := dblExpAux 1100 a 0
    let p := 2 ^ e
    let q := a / p
    let r := a % p
    let q2 := if 2 * r < p then q else if p < 2 * r then q + 1 else if q % 2 = 0 then q else q + 1
    let v : Int := (q2 * p : Nat)
    if n < 0 then -v else v

/-- Numeric value of a list of decimal digit characters. -/
def digitsVal (ds : List Char) : Nat :=
  ds.foldl (fun acc c => acc * 10 + (c.toNat - 48)) 0

/-- strconv.Atoi of main.go lines 113 and 190, on a 64-bit platform:
an optional leading plus or minus sign, then one or more decimal digits,
with the resulting value inside the signed 64-bit range; every other
string (empty, bare sign, stray characters, out-of-range value) is an
error, modelled as none. -/
def goAtoi (s : String) : Option Int :=
  match s.data with
  | [] => none
  | c :: rest =>
    let p := if c == '+' then (false, rest) else if c == '-' then (true, rest) else (false, c :: rest)
    if p.2 = [] then none
    else if p.2.all Char.isDigit then
      let v : Nat := digitsVal p.2
      let i : Int := if p.1 then -(v : Int) else (v : Int)
      if -(2 ^ 63) ≤ i ∧ i ≤ 2 ^ 63 - 1 then some i else none
    else none

/-- Strict lexicographic order on character lists by code point. -/
def ltChars : List Char → List Char → Bool
  | [], [] => false
  | [], _ :: _ => true
  | _ :: _, [] => false
  | a :: as, b :: bs => a.val < b.val || (a == b && ltChars as bs)

/-- The string order json.Marshal sorts object keys in (Go compares
strings bytewise; UTF-8 byte order agrees with code-point order). -/
def ltStr (s t : String) : Bool := ltChars s.data t.data

/-- Insert a key/value into a key-sorted Go object representation, keeping
the already-present value when the key is already bound.  Folding the
fields of a JSON object text from the right through this function yields
exactly the Go map json.Unmarshal builds (later duplicate keys win) in the
sorted key order json.Marshal re-serializes it in. -/
def insertFieldNew (k : String) (v : GoValue) : GoFields → GoFields
  | .nil => .cons k v .nil
  | .cons k2 v2 rest =>
    if ltStr k k2 then .cons k v (.cons k2 v2 rest)
    else if k = k2 then .cons k2 v2 rest
    else .cons k2 v2 (insertFieldNew k v rest)

mutual
/-- json.Unmarshal into interface{} (main.go line 172): numbers become
float64 (roundDouble), objects become Go maps (sorted, last duplicate
wins), arrays and the other scalars decode structurally. -/
def goDecode : Json → GoValue
  | .null => .null
  | .bool b => .bool b
  | .num n => .num (roundDouble n)
  | .str s => .str s
  | .arr xs => .arr (goDecodeList xs)
  | .obj fs => .obj (goDecodeFields fs)

def goDecodeList : JsonList → GoList
  | .nil => .nil
  | .cons x xs => .cons (goDecode x) (goDecodeList xs)

def goDecodeFields : JsonFields → GoFields
  | .nil => .nil
  | .cons k v rest => insertFieldNew k (goDecode v) (goDecodeFields rest)
end

mutual
/-- The JSON field content json.Marshal serializes a decoded Go value
back to (main.go line 98): the identity on every constructor; object maps
are emitted in their stored sorted key order. -/
def goValueToJson : GoValue → Json
  | .null => .null
  | .bool b => .bool b
  | .num n => .num n
  | .str s => .str s
  | .arr xs => .arr (goListToJson xs)
  | .obj fs => .obj (goFieldsToJson fs)

def goListToJson : GoList → JsonList
  | .nil => .nil
  | .cons x xs => .cons (goValueToJson x) (goListToJson xs)

def goFieldsToJson : GoFields → JsonFields
  | .nil => .nil
  | .cons k v rest => .cons k (goValueToJson v) (goFieldsToJson rest)
end

/-- All keys of the field list are strictly greater than k. -/
def allGt (k : String) : JsonFields → Bool
  | .nil => true
  | .cons k2 _ rest => ltStr k k2 && allGt k rest

/-- All keys of the Go field list are strictly greater than k. -/
def allGtG (k : String) : GoFields → Bool
  | .nil => true
  | .cons k2 _ rest => ltStr k k2 && allGtG k rest

mutual
/-- JSON values that Go decoding preserves exactly: every number is within
the exactly-representable double range, and every object literal already
lists its keys strictly increasing (the normal form Marshal emits). -/
def goodJson : Json → Bool
  | .null => true
  | .bool _ => true
  | .num n => decide (n.natAbs ≤ 2 ^ 53)
  | .str _ => true
  | .arr xs => goodList xs
  | .obj fs => goodFields fs

def goodList : JsonList → Bool
  | .nil => true
  | .cons x xs => goodJson x && goodList xs

def goodFields : JsonFields → Bool
  | .nil => true
  | .cons k v rest => goodJson v && allGt k rest && goodFields rest
end

/-- Go map lookup jsonData["crn"] on the sorted field representation. -/
def lookupField (k : String) : GoFields → Option GoValue
  | .nil => none
  | .cons k2 v rest => if k = k2 then some v else lookupField k rest

/-- Is this Go value a string (the crnInterface.(string) type assertion of
main.go lines 108 and 184)? -/
def isStrVal : GoValue → Bool
  | .str _ => true
  | _ => false

/-- Is this JSON value an object literal? -/
def isObjJson : Json → Bool
  | .obj _ => true
  | _ => false

/-- Does the pattern list lead the name list (character by character)? -/
def leadMatch : List Char → List Char → Bool
  | [], _ => true
  | _ :: _, [] => false
  | a :: as, b :: bs => a == b && leadMatch as bs

/-- filepath.Glob matching for the patterns the program builds
(main.go lines 36-37): a literal crn, a single star, a literal extension.
For a crn free of pattern metacharacters (in particular any string of
digits) a directory entry matches crn*.ext exactly when the entry starts
with crn and what follows ends with .ext. -/
def matchesPat (pre suf : String) (name : String) : Bool :=
  leadMatch pre.data name.data &&
    leadMatch suf.data.reverse ((name.data.drop pre.data.length).reverse)

/-- Error message of main.go line 50. -/
def certErrMsg (crn : String) : String :=
  "certificate or key file not found or multiple files found for crn: " ++ crn

/-- main.go lines 35-54, findCertificateFiles: glob the certs directory for
crn*.crt and crn*.key and demand exactly one match each; the returned paths
carry the certs/ directory component Glob prepends (for digit crns the Glob
error return is impossible: the pattern has no brackets, so it is well
formed).  The directory listing is the model of the filesystem state. -/
def findCertificateFiles (dir : List String) (crn : String) : Except String (String × String) :=
  let certFiles := (dir.filter fun n => matchesPat crn ".crt" n).map (fun n => "certs/" ++ n)
  let keyFiles := (dir.filter fun n => matchesPat crn ".key" n).map (fun n => "certs/" ++ n)
  match certFiles, keyFiles with
  | [c], [k] => .ok (c, k)
  | _, _ => .error (certErrMsg crn)

/-- An outbound interaction the program performs while serving one request:
the glob-based credential resolution, the multipart certificate upload
(curl with fields certificate, key, crn, main.go lines 73-80), or the
primary JSON call (curl with the marshalled request body, lines 123-130;
the body is recorded as the Go value it serializes). -/
inductive Call where
  | resolve (crn : String)
  | upload (url certPath keyPath crn : String)
  | primary (url : String) (body : GoFields)

/-- The outside world a single request runs against: the certs directory
listing, os.Stat existence, the outcome of the certificate-upload curl and
of the primary curl (an error carries the Go error text and the captured
output; success carries the output), and the formatted current time. -/
structure Env where
  certsDir : List String
  statExists : String → Bool
  uploadResult : Except (String × String) String
  primaryResult : String → Except (String × String) String
  now : String

/-- Error message of main.go line 84. -/
def uploadErrMsg (e out : String) : String :=
  "error uploading certificates: " ++ e ++ "\nResponse:\n" ++ out

/-- main.go lines 56-90, checkCertificates: resolve the credential pair,
re-check both files exist, then always re-upload certificate and key to the
upstream uploadCertificate endpoint before returning the paths; an upload
failure aborts with a message echoing the remote response body.  Returns
the trace of outbound interactions alongside the result. -/
def checkCertificates (env : Env) (crn : String) : List Call × Except String (String × String) :=
  match findCertificateFiles env.certsDir crn with
  | .error e => ([.resolve crn], .error e)
  | .ok (certPath, keyPath) =>
    if env.statExists certPath = false then
      ([.resolve crn], .error ("certificate file not found: " ++ certPath))
    else if env.statExists keyPath = false then
      ([.resolve crn], .error ("key file not found: " ++ keyPath))
    else
      match env.uploadResult with
      | .error (e, out) =>
        ([.resolve crn, .upload (baseURL ++ "uploadCertificate") certPath keyPath crn],
         .error (uploadErrMsg e out))
      | .ok _ =>
        ([.resolve crn, .upload (baseURL ++ "uploadCertificate") certPath keyPath crn],
         .ok (certPath, keyPath))

/-- Error message of main.go line 134. -/
def primaryErrMsg (endpointKey e out : String) : String :=
  "error in " ++ endpointKey ++ ": " ++ e ++ "\nResponse:\n" ++ out

/-- main.go lines 92-139, runCurlCommand: look the endpoint up, marshal the
body (never fails for decoded JSON values), re-validate the crn field
(presence, string type, Atoi), resolve and upload the credentials, then
issue the primary call and return its raw output.  The marshalled body sent
upstream is the jsonData map itself, unmodified. -/
def runCurlCommand (env : Env) (endpointKey : String) (jsonData : GoFields) :
    List Call × Except String String :=
  match endpoints.lookup endpointKey with
  | none => ([], .error ("unknown endpoint " ++ endpointKey))
  | some endpoint =>
    match lookupField "crn" jsonData with
    | none => ([], .error msgCrnMissingLower)
    | some crnInterface =>
      match crnInterface with
      | .str crn =>
        match goAtoi crn with
        | none => ([], .error msgCrnNumbersLower)
        | some _ =>
          match checkCertificates env crn with
          | (tr, .error e) => (tr, .error e)
          | (tr, .ok _) =>
            match env.primaryResult endpoint with
            | .error (e, out) =>
              (tr ++ [.primary (baseURL ++ endpoint) jsonData],
               .error (primaryErrMsg endpointKey e out))
            | .ok out =>
              (tr ++ [.primary (baseURL ++ endpoint) jsonData], .ok out)
      | _ => ([], .error msgCrnStringLower)

/-- A Go object literal built from a list of distinct keys (the error map
of main.go lines 144-150), stored in the sorted order Marshal emits. -/
def mkObj : List (String × GoValue) → GoFields
  | [] => .nil
  | (k, v) :: rest => insertFieldNew k v (mkObj rest)

/-- The 405 error object of main.go lines 143-150: timestamp, numeric
status 405, the fixed label, the hard-coded GET message, the request
path. -/
def errorResponse405 (now path : String) : GoFields :=
  mkObj [("timestamp", .str now), ("status", .num 405), ("error", .str "Method Not Allowed"),
         ("message", .str msg405), ("path", .str path)]

/-- A local HTTP response body: plain text (http.Error and the success
echo) or the marshalled JSON error object of the 405 branch. -/
inductive RespBody where
  | text (s : String)
  | jsonBody (fields : GoFields)

/-- A local HTTP response: wire status code and body. -/
structure Response where
  status : Nat
  body : RespBody

/-- json.Unmarshal of the request body into a map[string]any variable
(main.go lines 171-176): an unparseable text (modelled as none) and any
JSON value other than an object or null fail with a type error; the
literal null succeeds and leaves the map nil, on which every lookup
misses. -/
def unmarshalToMap : Option Json → Except Unit GoFields
  | none => .error ()
  | some .null => .ok .nil
  | some (.obj fs) => .ok (goDecodeFields fs)
  | some _ => .error ()

/-- main.go lines 141-204, handleRequest: the 405 branch for non-POST
methods, body read failure, JSON parse, the three crn checks, then
runCurlCommand; its error becomes a 500 text, its success a 200 echoing
the raw output. -/
def handleRequest (env : Env) (method path : String) (body : Option Json)
    (readErr : Bool) (endpointKey : String) : List Call × Response :=
  if method ≠ "POST" then
    ([], ⟨405, .jsonBody (errorResponse405 env.now path)⟩)
  else if readErr then
    ([], ⟨400, .text "Error reading request body"⟩)
  else
    match unmarshalToMap body with
    | .error _ => ([], ⟨400, .text "Invalid JSON"⟩)
    | .ok jsonData =>
      match lookupField "crn" jsonData with
      | none => ([], ⟨400, .text msgCrnMissing⟩)
      | some crnInterface =>
        match crnInterface with
        | .str crn =>
          match goAtoi crn with
          | none => ([], ⟨400, .text msgCrnNumbers⟩)
          | some _ =>
            match runCurlCommand env endpointKey jsonData with
            | (tr, .error e) => (tr, ⟨500, .text ("Error processing request: " ++ e)⟩)
            | (tr, .ok out) => (tr, ⟨200, .text out⟩)
        | _ => ([], ⟨400, .text msgCrnString⟩)

/-- Does the needle occur as a contiguous segment of the haystack? -/
def containsSeg (needle : List Char) : List Char → Bool
  | [] => needle.isEmpty
  | c :: rest => leadMatch needle (c :: rest) || containsSeg needle rest

/-- Substring test on strings. -/
def strContains (needle hay : String) : Bool := containsSeg needle.data hay.data

/-- A world in which merchant -123 has exactly one certificate and key
file, every file exists, and both outbound curl calls succeed. -/
def env0 : Env :=
  { certsDir := ["-123.crt", "-123.key"]
    statExists := fun _ => true
    uploadResult := .ok "uploaded"
    primaryResult := fun _ => .ok "remote-ok"
    now := "2026-10-11T00:00:00.000+0000" }

/-- A world in which merchant 1234 has exactly one certificate and key
file, every file exists, and both outbound curl calls succeed. -/
def env1 : Env :=
  { certsDir := ["1234.crt", "1234.key"]
    statExists := fun _ => true
    uploadResult := .ok "uploaded"
    primaryResult := fun _ => .ok "remote-ok"
    now := "2026-10-11T00:00:00.000+0000" }

/-- Like env1, but the remote service rejects the certificate upload. -/
def envU : Env :=
  { certsDir := ["1234.crt", "1234.key"]
    statExists := fun _ => true
    uploadResult := .error ("exit status 22", "upload rejected")
    primaryResult := fun _ => .ok "remote-ok"
    now := "2026-10-11T00:00:00.000+0000" }

/-- Request body with the signed merchant identifier -123. -/
def body0 : Json := .obj (.cons "crn" (.str "-123") .nil)

/-- Request body with merchant identifier 1234. -/
def body1 : Json := .obj (.cons "crn" (.str "1234") .nil)

/-- The decoded map of body1. -/
def m1 : GoFields := .cons "crn" (.str "1234") .nil

/-- Request body whose digits-only crn equals 2 ^ 63, one past the largest
signed 64-bit integer. -/
def body9 : Json := .obj (.cons "crn" (.str "9223372036854775808") .nil)

/-- The decoded map of body9. -/
def m9 : GoFields := .cons "crn" (.str "9223372036854775808") .nil

/-- Object fields used to exercise the lossless round-trip fragment. -/
def fs5 : JsonFields :=
  .cons "amount" (.num 9007199254740992) (.cons "crn" (.str "1234") .nil)

theorem roundDouble_small (n : Int) (h : n.natAbs ≤ 2 ^ 53) : roundDouble n = n := by
  simp only [roundDouble]
  rw [if_pos h]

theorem insertFieldNew_allGtG (k : String) (v : GoValue) (g : GoFields)
    (h : allGtG k g = true) : insertFieldNew k v g = .cons k v g := by
  cases g with
  | nil => rfl
  | cons k2 v2 rest =>
    simp [allGtG] at h
    simp [insertFieldNew, h.1]

theorem allGtG_insert (k k2 : String) (v : GoValue) :
    ∀ g : GoFields, allGtG k g = true → ltStr k k2 = true →
      allGtG k (insertFieldNew k2 v g) = true
  | .nil, _, hk => by simp [insertFieldNew, allGtG, hk]
  | .cons k3 v3 rest, hg, hk => by
    simp [allGtG] at hg
    by_cases h1 : ltStr k2 k3 = true
    · simp [insertFieldNew, h1, allGtG, hk, hg.1, hg.2]
    · by_cases h2 : k2 = k3
      · subst h2
        simp [insertFieldNew, h1, allGtG, hg.1, hg.2]
      · simp [insertFieldNew, h1, h2, allGtG, hg.1,
          allGtG_insert k k2 v rest hg.2 hk]

theorem allGt_goDecodeFields (k : String) :
    ∀ fs : JsonFields, allGt k fs = true → allGtG k (goDecodeFields fs) = true
  | .nil, _ => rfl
  | .cons k2 v rest, h => by
    simp [allGt] at h
    simp only [goDecodeFields]
    exact allGtG_insert k k2 (goDecode v) (goDecodeFields rest)
      (allGt_goDecodeFields k rest h.2) h.1

mutual
theorem goDecode_roundtrip :
    ∀ v : Json, goodJson v = true → goValueToJson (goDecode v) = v
  | .null, _ => rfl
  | .bool _, _ => rfl
  | .num n, h => by
    simp [goodJson] at h
    simp [goDecode, goValueToJson, roundDouble_small n h]
  | .str _, _ => rfl
  | .arr xs, h => by
    simp only [goodJson] at h
    simp only [goDecode, goValueToJson]
    rw [goDecodeList_roundtrip xs h]
  | .obj fs, h => by
    simp only [goodJson] at h
    simp only [goDecode, goValueToJson]
    rw [goDecodeFields_roundtrip fs h]

theorem goDecodeList_roundtrip :
    ∀ xs : JsonList, goodList xs = true → goListToJson (goDecodeList xs) = xs
  | .nil, _ => rfl
  | .cons x xs, h => by
    simp [goodList] at h
    simp only [goDecodeList, goListToJson]
    rw [goDecode_roundtrip x h.1, goDecodeList_roundtrip xs h.2]

theorem goDecodeFields_roundtrip :
    ∀ fs : JsonFields, goodFields fs = true → goFieldsToJson (goDecodeFields fs) = fs
  | .nil, _ => rfl
  | .cons k v rest, h => by
    simp [goodFields] at h
    have hg : allGtG k (goDecodeFields rest) = true :=
      allGt_goDecodeFields k rest h.1.2
    simp only [goDecodeFields]
    rw [insertFieldNew_allGtG k (goDecode v) (goDecodeFields rest) hg]
    simp only [goFieldsToJson]
    rw [goDecode_roundtrip v h.1.1, goDecodeFields_roundtrip rest h.2]
end

theorem goAtoi_overflow (crn : String) (hne : crn.data ≠ [])
    (hd : crn.data.all Char.isDigit = true)
    (hbig : 2 ^ 63 - 1 < digitsVal crn.data) : goAtoi crn = none := by
  rcases hcs : crn.data with _ | ⟨c, rest⟩
  · exact absurd hcs hne
  · have hall : (c :: rest).all Char.isDigit = true := by rw [← hcs]; exact hd
    have hcd : c.isDigit = true := by
      simp [List.all_cons] at hall
      exact hall.1
    have hplus : (c == '+') = false := by
      cases hb : c == '+' with
      | false => rfl
      | true =>
        rw [eq_of_beq hb] at hcd
        exact absurd hcd (by decide)
    have hminus : (c == '-') = false := by
      cases hb : c == '-' with
      | false => rfl
      | true =>
        rw [eq_of_beq hb] at hcd
        exact absurd hcd (by decide)
    simp only [goAtoi, hcs, hplus, hminus, Bool.false_eq_true, if_false]
    rw [if_neg (by simp), if_pos hall, if_neg]
    rintro ⟨-, h2⟩
    rw [hcs] at hbig
    omega

/-- Claim C1 counterexample: the crn string -123 contains a non-digit
character (the sign), yet a POST to the /print route carrying it is not
answered with 400: strconv.Atoi accepts an optional leading sign, so the
request passes validation and, in a world where the outbound calls
succeed, is answered 200 after performing all outbound calls. -/
theorem signed_crn_passes_validation :
    routes.lookup "/print" = some "print" ∧
    ("-123").data.all Char.isDigit = false ∧
    handleRequest env0 "POST" "/print" (some body0) false "print" =
      ([Call.resolve "-123",
        Call.upload (baseURL ++ "uploadCertificate") "certs/-123.crt" "certs/-123.key" "-123",
        Call.primary (baseURL ++ "print") (GoFields.cons "crn" (.str "-123") .nil)],
       ⟨200, .text "remote-ok"⟩) :=
  ⟨rfl, by decide, rfl⟩

/-- Claim C1 (amended): on any of the nine routes, a POST whose parsed
body maps crn to a string is answered 400 with the only-numbers message
exactly when strconv.Atoi rejects that string; the accepted strings are an
optional sign followed by decimal digits with value in the signed 64-bit
range, not precisely the digit-only strings. -/
theorem crn_rejected_iff_atoi_fails (env : Env) (path epKey : String)
    (body : Option Json) (m : GoFields) (crn : String)
    (hroute : routes.lookup path = some epKey)
    (hb : unmarshalToMap body = .ok m)
    (hcrn : lookupField "crn" m = some (.str crn)) :
    ((handleRequest env "POST" path body false epKey).2 =
      ⟨400, .text msgCrnNumbers⟩) ↔ goAtoi crn = none := by
  constructor
  · intro h
    rcases hA : goAtoi crn with _ | n
    · rfl
    · exfalso
      rcases hrc : runCurlCommand env epKey m with ⟨tr, r⟩
      cases r with
      | error e => simp [handleRequest, hb, hcrn, hA, hrc] at h
      | ok out => simp [handleRequest, hb, hcrn, hA, hrc] at h
  · intro hA
    simp [handleRequest, hb, hcrn, hA]

/-- Claim C1 (amended) witness at the concrete rejected string 12ab. -/
theorem crn_rejected_iff_atoi_fails_w :
    ((handleRequest env0 "POST" "/print"
        (some (Json.obj (.cons "crn" (.str "12ab") .nil))) false "print").2 =
      ⟨400, .text msgCrnNumbers⟩) ↔ goAtoi "12ab" = none :=
  crn_rejected_iff_atoi_fails env0 "/print" "print"
    (some (Json.obj (.cons "crn" (.str "12ab") .nil)))
    (GoFields.cons "crn" (.str "12ab") .nil) "12ab" rfl rfl rfl

/-- Claim C2: for a digit merchant identifier, credential resolution
returns the single matching certificate path and key path exactly when the
store holds exactly one file matching each glob; any other match count
(including zero) yields the fixed not-found-or-multiple error naming the
identifier. -/
theorem cert_resolution_exactly_one (dir : List String) (crn : String)
    (hd : crn.data.all Char.isDigit = true) :
    (∀ c0 k0, dir.filter (fun n => matchesPat crn ".crt" n) = [c0] →
       dir.filter (fun n => matchesPat crn ".key" n) = [k0] →
       findCertificateFiles dir crn = .ok ("certs/" ++ c0, "certs/" ++ k0)) ∧
    (¬((dir.filter (fun n => matchesPat crn ".crt" n)).length = 1 ∧
        (dir.filter (fun n => matchesPat crn ".key" n)).length = 1) →
      findCertificateFiles dir crn = .error (certErrMsg crn)) ∧
    ((∃ p, findCertificateFiles dir crn = .ok p) ↔
      ((dir.filter (fun n => matchesPat crn ".crt" n)).length = 1 ∧
       (dir.filter (fun n => matchesPat crn ".key" n)).length = 1)) := by
  have hok : ∀ c0 k0, dir.filter (fun n => matchesPat crn ".crt" n) = [c0] →
      dir.filter (fun n => matchesPat crn ".key" n) = [k0] →
      findCertificateFiles dir crn = .ok ("certs/" ++ c0, "certs/" ++ k0) := by
    intro c0 k0 h1 h2
    simp [findCertificateFiles, h1, h2]
  have herr : ¬((dir.filter (fun n => matchesPat crn ".crt" n)).length = 1 ∧
      (dir.filter (fun n => matchesPat crn ".key" n)).length = 1) →
      findCertificateFiles dir crn = .error (certErrMsg crn) := by
    intro hno
    rcases hc : dir.filter (fun n => matchesPat crn ".crt" n) with _ | ⟨c0, _ | ⟨c1, cs⟩⟩ <;>
      rcases hk : dir.filter (fun n => matchesPat crn ".key" n) with _ | ⟨k0, _ | ⟨k1, ks⟩⟩ <;>
      first
      | exact absurd ⟨by rw [hc]; rfl, by rw [hk]; rfl⟩ hno
      | simp [findCertificateFiles, hc, hk]
  refine ⟨hok, herr, ?_⟩
  constructor
  · rintro ⟨p, hp⟩
    by_contra hno
    rw [herr hno] at hp
    exact Except.noConfusion hp
  · rintro ⟨h1, h2⟩
    rcases List.length_eq_one.mp h1 with ⟨c0, hc⟩
    rcases List.length_eq_one.mp h2 with ⟨k0, hk⟩
    exact ⟨_, hok c0 k0 hc hk⟩

/-- Claim C2 witness: a store with one cert and one key for 1234 (plus an
unrelated file) resolves to those two paths. -/
theorem cert_resolution_exactly_one_w :
    findCertificateFiles ["1234.crt", "1234.key", "9.crt"] "1234" =
      .ok ("certs/" ++ "1234.crt", "certs/" ++ "1234.key") :=
  (cert_resolution_exactly_one ["1234.crt", "1234.key", "9.crt"] "1234" (by decide)).1
    "1234.crt" "1234.key" (by decide) (by decide)

/-- Claim C3: for every one of the nine operations, once credential
resolution succeeds (glob gives one pair and both files exist) the
certificate upload to the upstream uploadCertificate endpoint is issued
before the primary call: on upload failure the request aborts with the
upload error echoing the remote body and the trace contains no primary
call; on upload success the trace is resolve, then upload, then the
primary call, whatever the primary outcome. -/
theorem upload_precedes_primary (env : Env) (epKey ep crn c k : String)
    (m : GoFields) (n : Int)
    (hep : endpoints.lookup epKey = some ep)
    (hcrn : lookupField "crn" m = some (.str crn))
    (hnum : goAtoi crn = some n)
    (hres : findCertificateFiles env.certsDir crn = .ok (c, k))
    (hc : env.statExists c = true)
    (hk : env.statExists k = true) :
    (∀ e out, env.uploadResult = .error (e, out) →
      runCurlCommand env epKey m =
        ([.resolve crn, .upload (baseURL ++ "uploadCertificate") c k crn],
         .error (uploadErrMsg e out))) ∧
    (∀ u, env.uploadResult = .ok u →
      (runCurlCommand env epKey m).1 =
        [.resolve crn, .upload (baseURL ++ "uploadCertificate") c k crn,
         .primary (baseURL ++ ep) m]) := by
  constructor
  · intro e out hu
    simp [runCurlCommand, hep, hcrn, hnum, checkCertificates, hres, hc, hk, hu]
  · intro u hu
    rcases hp : env.primaryResult ep with ⟨e2, out2⟩ | out2 <;>
      simp [runCurlCommand, hep, hcrn, hnum, checkCertificates, hres, hc, hk, hu, hp]

/-- Claim C3 witness: the uploadCertificate operation itself, in a world
where the remote rejects the upload: the trace stops at the upload and the
call builder aborts with the upload error echoing the remote body. -/
theorem upload_precedes_primary_w :
    runCurlCommand envU "uploadCertificate" m1 =
      ([Call.resolve "1234",
        Call.upload (baseURL ++ "uploadCertificate") "certs/1234.crt" "certs/1234.key" "1234"],
       .error (uploadErrMsg "exit status 22" "upload rejected")) :=
  (upload_precedes_primary envU "uploadCertificate" "uploadCertificate" "1234"
      "certs/1234.crt" "certs/1234.key" m1 1234 rfl rfl rfl rfl rfl rfl).1
    "exit status 22" "upload rejected" rfl

/-- Claim C4 counterexample: a PUT to the /print route is answered 405
with the structured JSON object, but its message field is the hard-coded
GET text, which does not name the rejected method PUT. -/
theorem method_message_hardcoded_get :
    routes.lookup "/print" = some "print" ∧
    handleRequest env0 "PUT" "/print" none false "print" =
      ([], ⟨405, .jsonBody (errorResponse405 env0.now "/print")⟩) ∧
    lookupField "message" (errorResponse405 env0.now "/print") = some (.str msg405) ∧
    strContains "PUT" msg405 = false :=
  ⟨rfl, rfl, rfl, by decide⟩

/-- Claim C4 (amended): every non-POST request on any of the nine routes
is answered 405 with no outbound call and a JSON object holding the
timestamp, numeric status 405, the fixed label Method Not Allowed, the
request path, and a message that is the fixed GET text regardless of the
actual method. -/
theorem non_post_rejected_405 (env : Env) (method path epKey : String)
    (body : Option Json) (readErr : Bool)
    (hm : method ≠ "POST")
    (hroute : routes.lookup path = some epKey) :
    handleRequest env method path body readErr epKey =
      ([], ⟨405, .jsonBody (errorResponse405 env.now path)⟩) ∧
    lookupField "timestamp" (errorResponse405 env.now path) = some (.str env.now) ∧
    lookupField "status" (errorResponse405 env.now path) = some (.num 405) ∧
    lookupField "error" (errorResponse405 env.now path) = some (.str "Method Not Allowed") ∧
    lookupField "message" (errorResponse405 env.now path) = some (.str msg405) ∧
    lookupField "path" (errorResponse405 env.now path) = some (.str path) := by
  refine ⟨?_, rfl, rfl, rfl, rfl, rfl⟩
  unfold handleRequest
  rw [if_pos hm]

/-- Claim C4 (amended) witness at the concrete method DELETE on the
/activate route. -/
theorem non_post_rejected_405_w :
    handleRequest env0 "DELETE" "/activate" none false "activate" =
      ([], ⟨405, .jsonBody (errorResponse405 env0.now "/activate")⟩) ∧
    lookupField "timestamp" (errorResponse405 env0.now "/activate") = some (.str env0.now) ∧
    lookupField "status" (errorResponse405 env0.now "/activate") = some (.num 405) ∧
    lookupField "error" (errorResponse405 env0.now "/activate") = some (.str "Method Not Allowed") ∧
    lookupField "message" (errorResponse405 env0.now "/activate") = some (.str msg405) ∧
    lookupField "path" (errorResponse405 env0.now "/activate") = some (.str "/activate") :=
  non_post_rejected_405 env0 "DELETE" "/activate" "activate" none false (by decide) rfl

/-- Claim C5 counterexample: the parse step is lossy: json.Unmarshal
decodes the integer 9007199254740993 (one past 2 to the 53rd) into the
float64 9007199254740992, so the field content serialized upstream differs
from the inbound JSON value; the round trip is not lossless for every
JSON-representable value. -/
theorem decode_lossy_above_double_range :
    unmarshalToMap (some (Json.obj (.cons "crn" (.str "1")
        (.cons "total" (.num 9007199254740993) .nil)))) =
      .ok (.cons "crn" (.str "1") (.cons "total" (.num 9007199254740992) .nil)) ∧
    goValueToJson (goDecode (Json.num 9007199254740993)) = Json.num 9007199254740992 ∧
    Json.num 9007199254740992 ≠ Json.num 9007199254740993 :=
  ⟨rfl, rfl, by simp⟩

/-- Claim C5 (amended): the outbound body is the parsed inbound object
itself, serialized unmodified (visible in runCurlCommand), and the
parse-then-serialize round trip preserves field content exactly on the
values whose numbers all lie within the exactly-representable double range
(magnitude at most 2 to the 53rd) and whose objects list their keys in the
strictly sorted order Marshal emits; beyond that range the decode step
rounds numbers, so the round trip is lossy in general. -/
theorem upstream_body_roundtrip (fs : JsonFields) (m : GoFields)
    (hg : goodJson (Json.obj fs) = true)
    (hm : unmarshalToMap (some (Json.obj fs)) = .ok m) :
    goValueToJson (GoValue.obj m) = Json.obj fs := by
  have hm2 : goDecodeFields fs = m := by
    simpa [unmarshalToMap] using hm
  rw [← hm2]
  simp only [goValueToJson]
  rw [goDecodeFields_roundtrip fs (by simpa [goodJson] using hg)]

/-- Claim C5 (amended) witness at a two-field object whose number is the
largest exactly-representable integer. -/
theorem upstream_body_roundtrip_w :
    goodJson (Json.obj fs5) = true ∧
    goValueToJson (GoValue.obj (goDecodeFields fs5)) = Json.obj fs5 :=
  ⟨by decide, upstream_body_roundtrip fs5 (goDecodeFields fs5) (by decide) rfl⟩

/-- Claim C6: every request that fails validation (unreadable body,
malformed JSON, missing crn, non-string crn, or crn rejected by Atoi) is
answered 400 with a plain-text message, and the trace of outbound
interactions is empty: no credential resolution, no upload, no primary
call. -/
theorem validation_failure_no_outbound (env : Env) (path epKey : String)
    (body : Option Json) (readErr : Bool)
    (h : readErr = true ∨ unmarshalToMap body = .error () ∨
      (∃ m, unmarshalToMap body = .ok m ∧
        (lookupField "crn" m = none ∨
         (∃ g, lookupField "crn" m = some g ∧ isStrVal g = false) ∨
         (∃ crn, lookupField "crn" m = some (.str crn) ∧ goAtoi crn = none)))) :
    ∃ msg, handleRequest env "POST" path body readErr epKey =
      ([], ⟨400, .text msg⟩) := by
  cases readErr with
  | true => exact ⟨"Error reading request body", by simp [handleRequest]⟩
  | false =>
    rcases h with h | h | ⟨m, hm, h⟩
    · exact absurd h (by simp)
    · exact ⟨"Invalid JSON", by simp [handleRequest, h]⟩
    · rcases h with h | ⟨g, hg, hs⟩ | ⟨crn, hcrn, hA⟩
      · exact ⟨msgCrnMissing, by simp [handleRequest, hm, h]⟩
      · refine ⟨msgCrnString, ?_⟩
        cases g with
        | str s => simp [isStrVal] at hs
        | null => simp [handleRequest, hm, hg]
        | bool b => simp [handleRequest, hm, hg]
        | num n => simp [handleRequest, hm, hg]
        | arr xs => simp [handleRequest, hm, hg]
        | obj fs2 => simp [handleRequest, hm, hg]
      · exact ⟨msgCrnNumbers, by simp [handleRequest, hm, hcrn, hA]⟩

/-- Claim C6 witness: an unparseable body on the /print route. -/
theorem validation_failure_no_outbound_w :
    unmarshalToMap none = .error () ∧
    ∃ msg, handleRequest env0 "POST" "/print" none false "print" =
      ([], ⟨400, .text msg⟩) :=
  ⟨rfl, validation_failure_no_outbound env0 "/print" "print" none false
    (.inr (.inl rfl))⟩

/-- Claim C7: whenever validation, resolution, the upload and the primary
call all succeed, the local response is status 200 and its body is exactly
the raw upstream output, whatever that output is. -/
theorem success_echoes_upstream_body (env : Env) (path epKey ep crn c k u out : String)
    (body : Option Json) (m : GoFields) (n : Int)
    (hb : unmarshalToMap body = .ok m)
    (hep : endpoints.lookup epKey = some ep)
    (hcrn : lookupField "crn" m = some (.str crn))
    (hnum : goAtoi crn = some n)
    (hres : findCertificateFiles env.certsDir crn = .ok (c, k))
    (hc : env.statExists c = true)
    (hk : env.statExists k = true)
    (hu : env.uploadResult = .ok u)
    (hp : env.primaryResult ep = .ok out) :
    handleRequest env "POST" path body false epKey =
      ([.resolve crn, .upload (baseURL ++ "uploadCertificate") c k crn,
        .primary (baseURL ++ ep) m],
       ⟨200, .text out⟩) := by
  simp [handleRequest, hb, hcrn, hnum, runCurlCommand, hep, checkCertificates,
    hres, hc, hk, hu, hp]

/-- Claim C7 witness: the checkConnection scenario with merchant 1234 and
remote output remote-ok. -/
theorem success_echoes_upstream_body_w :
    handleRequest env1 "POST" "/checkConnection" (some body1) false "checkConnection" =
      ([Call.resolve "1234",
        Call.upload (baseURL ++ "uploadCertificate") "certs/1234.crt" "certs/1234.key" "1234",
        Call.primary (baseURL ++ "checkConnection") m1],
       ⟨200, .text "remote-ok"⟩) :=
  success_echoes_upstream_body env1 "/checkConnection" "checkConnection" "checkConnection"
    "1234" "certs/1234.crt" "certs/1234.key" "uploaded" "remote-ok" (some body1) m1 1234
    rfl rfl rfl rfl rfl rfl rfl rfl rfl

/-- Claim C8: the crn validation is enforced at both layers with matching
checks: on the same parsed map, the call builder fails with its lowercase
missing, must-be-a-string and only-numbers errors exactly where the HTTP
entry point answers 400 with the corresponding capitalized message. -/
theorem crn_checked_in_both_layers (env : Env) (path epKey ep : String)
    (body : Option Json) (m : GoFields)
    (hep : endpoints.lookup epKey = some ep)
    (hb : unmarshalToMap body = .ok m) :
    (lookupField "crn" m = none →
      runCurlCommand env epKey m = ([], .error msgCrnMissingLower) ∧
      handleRequest env "POST" path body false epKey = ([], ⟨400, .text msgCrnMissing⟩)) ∧
    (∀ g, lookupField "crn" m = some g → isStrVal g = false →
      runCurlCommand env epKey m = ([], .error msgCrnStringLower) ∧
      handleRequest env "POST" path body false epKey = ([], ⟨400, .text msgCrnString⟩)) ∧
    (∀ crn, lookupField "crn" m = some (.str crn) → goAtoi crn = none →
      runCurlCommand env epKey m = ([], .error msgCrnNumbersLower) ∧
      handleRequest env "POST" path body false epKey = ([], ⟨400, .text msgCrnNumbers⟩)) := by
  refine ⟨?_, ?_, ?_⟩
  · intro h
    exact ⟨by simp [runCurlCommand, hep, h], by simp [handleRequest, hb, h]⟩
  · intro g hg hs
    cases g with
    | str s => simp [isStrVal] at hs
    | null => exact ⟨by simp [runCurlCommand, hep, hg], by simp [handleRequest, hb, hg]⟩
    | bool b => exact ⟨by simp [runCurlCommand, hep, hg], by simp [handleRequest, hb, hg]⟩
    | num n => exact ⟨by simp [runCurlCommand, hep, hg], by simp [handleRequest, hb, hg]⟩
    | arr xs => exact ⟨by simp [runCurlCommand, hep, hg], by simp [handleRequest, hb, hg]⟩
    | obj fs2 => exact ⟨by simp [runCurlCommand, hep, hg], by simp [handleRequest, hb, hg]⟩
  · intro crn hcrn hA
    exact ⟨by simp [runCurlCommand, hep, hcrn, hA], by simp [handleRequest, hb, hcrn, hA]⟩

/-- Claim C8 witness: a body whose parsed map has no crn key fails in the
call builder with the lowercase missing error and at the entry point with
the capitalized one. -/
theorem crn_checked_in_both_layers_w :
    runCurlCommand env0 "print" .nil = ([], .error msgCrnMissingLower) ∧
    handleRequest env0 "POST" "/print" (some .null) false "print" =
      ([], ⟨400, .text msgCrnMissing⟩) :=
  (crn_checked_in_both_layers env0 "/print" "print" "print" (some .null) .nil rfl rfl).1 rfl

/-- Claim C9: a crn consisting entirely of decimal digits whose value
exceeds the signed 64-bit range is rejected with 400 and the only-numbers
message, because validation parses the crn with strconv.Atoi (a
machine-width integer parse) rather than checking the digit characters. -/
theorem overflow_crn_rejected (env : Env) (path epKey : String)
    (body : Option Json) (m : GoFields) (crn : String)
    (hb : unmarshalToMap body = .ok m)
    (hcrn : lookupField "crn" m = some (.str crn))
    (hne : crn.data ≠ [])
    (hd : crn.data.all Char.isDigit = true)
    (hbig : 2 ^ 63 - 1 < digitsVal crn.data) :
    handleRequest env "POST" path body false epKey =
      ([], ⟨400, .text msgCrnNumbers⟩) := by
  have hA : goAtoi crn = none := goAtoi_overflow crn hne hd hbig
  simp [handleRequest, hb, hcrn, hA]

/-- Claim C9 witness: the all-digit crn 9223372036854775808, one past the
largest signed 64-bit integer, is answered 400. -/
theorem overflow_crn_rejected_w :
    ("9223372036854775808").data.all Char.isDigit = true ∧
    2 ^ 63 - 1 < digitsVal ("9223372036854775808").data ∧
    handleRequest env1 "POST" "/print" (some body9) false "print" =
      ([], ⟨400, .text msgCrnNumbers⟩) :=
  ⟨by decide, by decide,
    overflow_crn_rejected env1 "/print" "print" (some body9) m9
      "9223372036854775808" rfl rfl (by decide) (by decide) (by decide)⟩

/-- Claim C10: a POST whose body is valid JSON but not an object is
answered 400: any non-object, non-null value is a type error for the map
target and rejected as Invalid JSON, while the literal null passes
Unmarshal (leaving the map nil) and is rejected as crn missing. -/
theorem non_object_body_rejected (env : Env) (path epKey : String) (v : Json)
    (hroute : routes.lookup path = some epKey) :
    (isObjJson v = false → v ≠ .null →
      handleRequest env "POST" path (some v) false epKey =
        ([], ⟨400, .text "Invalid JSON"⟩)) ∧
    handleRequest env "POST" path (some .null) false epKey =
      ([], ⟨400, .text msgCrnMissing⟩) := by
  constructor
  · intro hobj hnull
    cases v with
    | null => exact absurd rfl hnull
    | obj fs => simp [isObjJson] at hobj
    | bool b => simp [handleRequest, unmarshalToMap]
    | num n => simp [handleRequest, unmarshalToMap]
    | str s => simp [handleRequest, unmarshalToMap]
    | arr xs => simp [handleRequest, unmarshalToMap]
  · simp [handleRequest, unmarshalToMap, lookupField]

/-- Claim C10 witness: an empty JSON array on the /print route. -/
theorem non_object_body_rejected_w :
    isObjJson (Json.arr .nil) = false ∧
    handleRequest env0 "POST" "/print" (some (Json.arr .nil)) false "print" =
      ([], ⟨400, .text "Invalid JSON"⟩) :=
  ⟨rfl, (non_object_body_rejected env0 "/print" "print" (Json.arr .nil) rfl).1 rfl
    (fun h => Json.noConfusion h)⟩
